import Mathlib

set_option maxHeartbeats 1000000

/-!
Verification development for the PyPSI need/motivation core
(src/pypsi/needs/tanks.py and src/pypsi/needs/motivators.py).

Python floats are modelled as exact rationals in the tank layer and as real
numbers in the motivator layer, where the natural logarithm (math.log1p)
appears.  Python dicts are modelled as insertion-ordered association lists,
which is exactly the iteration-order semantics the source relies on.
-/

namespace PyPSI

/-- tanks.py lines 22-48: the closed enumeration of the six need types, in
declaration order. -/
inductive NeedType : Type where
  | HUNGER
  | THIRST
  | ENERGY
  | CERTAINTY
  | COMPETENCE
  | AFFILIATION
  deriving DecidableEq

/-- Python `auto()` enum values 1..6, recording the declaration (ordinal)
order of the enum members. -/
def NeedType.value : NeedType → Nat
  | .HUNGER => 1
  | .THIRST => 2
  | .ENERGY => 3
  | .CERTAINTY => 4
  | .COMPETENCE => 5
  | .AFFILIATION => 6

/-- Iteration order of `for need_type in NeedType` in Python. -/
def NeedType.all : List NeedType :=
  [.HUNGER, .THIRST, .ENERGY, .CERTAINTY, .COMPETENCE, .AFFILIATION]

/-- tanks.py lines 51-78: the NeedTank dataclass with its field defaults. -/
structure NeedTank : Type where
  need_type : NeedType
  target_level : ℚ := 1.0
  current_level : ℚ := 1.0
  depletion_rate : ℚ := 0.01
  fill_rate : ℚ := 0.5
  critical_threshold : ℚ := 0.2
  deriving DecidableEq

/-- Validation errors raised by `NeedTank.__post_init__` (tanks.py lines
80-95).  Each constructor names the offending field and carries the offending
value; for `current_level` the upper bound of the allowed range is also part
of the message, so it is carried too.  The allowed range of every other field
is fixed, exactly as in the Python error messages. -/
inductive TankError : Type where
  | target_level (got : ℚ)
  | current_level (got : ℚ) (hi : ℚ)
  | depletion_rate (got : ℚ)
  | fill_rate (got : ℚ)
  | critical_threshold (got : ℚ)
  deriving DecidableEq

/-- Construction of a NeedTank: the dataclass `__init__` followed by
`__post_init__` validation (tanks.py lines 80-95), checks in source order. -/
def NeedTank.construct (need_type : NeedType)
    (target_level current_level depletion_rate fill_rate critical_threshold : ℚ) :
    Except TankError NeedTank :=
  if ¬ (0 ≤ target_level ∧ target_level ≤ 1) then
    .error (.target_level target_level)
  else if ¬ (0 ≤ current_level ∧ current_level ≤ target_level) then
    .error (.current_level current_level target_level)
  else if depletion_rate < 0 then
    .error (.depletion_rate depletion_rate)
  else if fill_rate < 0 then
    .error (.fill_rate fill_rate)
  else if ¬ (0 ≤ critical_threshold ∧ critical_threshold ≤ 1) then
    .error (.critical_threshold critical_threshold)
  else
    .ok ⟨need_type, target_level, current_level, depletion_rate, fill_rate, critical_threshold⟩

/-- tanks.py lines 97-111:
`current_level = max(0.0, current_level - depletion_rate * dt)`. -/
def NeedTank.update (t : NeedTank) (dt : ℚ) : NeedTank :=
  ⟨t.need_type, t.target_level, max 0 (t.current_level - t.depletion_rate * dt),
    t.depletion_rate, t.fill_rate, t.critical_threshold⟩

/-- tanks.py lines 113-127: fill by `amount` if given, else by `fill_rate`;
`current_level = min(target_level, current_level + fill_amount)`. -/
def NeedTank.satisfy (t : NeedTank) (amount : Option ℚ) : NeedTank :=
  ⟨t.need_type, t.target_level,
    min t.target_level
      (t.current_level + (match amount with | some a => a | none => t.fill_rate)),
    t.depletion_rate, t.fill_rate, t.critical_threshold⟩

/-- tanks.py lines 129-139. -/
def NeedTank.bedarf (t : NeedTank) : ℚ := t.target_level - t.current_level

/-- tanks.py lines 141-150. -/
def NeedTank.is_critical (t : NeedTank) : Bool :=
  t.current_level < t.critical_threshold

/-- tanks.py lines 152-160: guarded division, `0.0` when `target_level` is 0. -/
def NeedTank.satisfaction_ratio (t : NeedTank) : ℚ :=
  if t.target_level = 0 then 0 else t.current_level / t.target_level

/-- tanks.py lines 172-199: the system holds an insertion-ordered dict of
tanks, modelled as an association list. -/
structure NeedTankSystem : Type where
  tanks : List (NeedType × NeedTank)
  deriving DecidableEq

/-- tanks.py lines 185-197: the default configuration table, in the format
(target, depletion_rate, fill_rate, critical_threshold). -/
def NeedTankSystem.DEFAULT_CONFIG : NeedType → ℚ × ℚ × ℚ × ℚ
  | .HUNGER => (1.0, 0.02, 0.8, 0.15)
  | .THIRST => (1.0, 0.03, 0.9, 0.1)
  | .ENERGY => (1.0, 0.015, 0.6, 0.2)
  | .CERTAINTY => (1.0, 0.005, 0.3, 0.25)
  | .COMPETENCE => (1.0, 0.008, 0.4, 0.2)
  | .AFFILIATION => (1.0, 0.01, 0.5, 0.15)

/-- The default tank built for a need type by `NeedTankSystem.__post_init__`:
configured from the default table, starting full (current = target). -/
def defaultTank (nt : NeedType) : NeedTank :=
  ⟨nt, (NeedTankSystem.DEFAULT_CONFIG nt).1, (NeedTankSystem.DEFAULT_CONFIG nt).1,
    (NeedTankSystem.DEFAULT_CONFIG nt).2.1, (NeedTankSystem.DEFAULT_CONFIG nt).2.2.1,
    (NeedTankSystem.DEFAULT_CONFIG nt).2.2.2⟩

/-- tanks.py lines 201-213: `__post_init__` fills the tanks dict with one
default tank per need type, in enum order, when no tanks were supplied; a
supplied non-empty dict is kept as given (in its own insertion order). -/
def NeedTankSystem.init (tanks : List (NeedType × NeedTank)) : NeedTankSystem :=
  if tanks.isEmpty then ⟨ NeedType.all.map (fun nt => (nt, defaultTank nt))⟩
  else ⟨tanks⟩

/-- tanks.py lines 240-250. -/
def NeedTankSystem.get_all_bedarfe (s : NeedTankSystem) : List (NeedType × ℚ) :=
  s.tanks.map (fun p => (p.1, p.2.bedarf))

/-- tanks.py lines 284-290. -/
def NeedTankSystem.has_critical_needs (s : NeedTankSystem) : Bool :=
  s.tanks.any (fun p => p.2.is_critical)

/-- tanks.py lines 292-300: Python `max(keys, key=...)` keeps the current best
and replaces it only on a strictly greater key, so the first maximum in
iteration (insertion) order wins.  `max` on an empty dict raises; that
unreachable case is modelled as `none`. -/
def NeedTankSystem.get_most_urgent_need (s : NeedTankSystem) : Option NeedType :=
  match s.tanks with
  | [] => none
  | p :: ps =>
    some (ps.foldl (fun acc q => if q.2.bedarf > acc.2.bedarf then q else acc) p).1

noncomputable section

/-- motivators.py lines 62-89: the Motivator dataclass with its field
defaults.  It has no `__post_init__`, hence no construction-time checks. -/
structure Motivator : Type where
  need_type : NeedType
  accumulated_bedarf : ℝ := 0.0
  decay_rate : ℝ := 0.1
  max_accumulation : ℝ := 10.0

/-- Construction of a Motivator: the dataclass `__init__` alone.  There is no
`__post_init__` in the source, so construction always succeeds, whatever the
field values; the `Except` result type makes that observable side by side
with `NeedTank.construct`. -/
def Motivator.construct (need_type : NeedType)
    (accumulated_bedarf decay_rate max_accumulation : ℝ) :
    Except TankError Motivator :=
  .ok ⟨need_type, accumulated_bedarf, decay_rate, max_accumulation⟩

/-- motivators.py lines 91-110. -/
def Motivator.accumulate (m : Motivator) (bedarf : ℝ) : Motivator :=
  ⟨m.need_type, min m.max_accumulation (m.accumulated_bedarf + max 0 bedarf),
    m.decay_rate, m.max_accumulation⟩

/-- motivators.py lines 112-127. -/
def Motivator.decay (m : Motivator) (dt : ℝ) : Motivator :=
  ⟨m.need_type, max 0 (m.accumulated_bedarf - m.decay_rate * dt),
    m.decay_rate, m.max_accumulation⟩

/-- motivators.py lines 129-144: `math.log1p(accumulated_bedarf)`, i.e.
ln(1 + accumulated_bedarf). -/
def Motivator.get_activity (m : Motivator) : ℝ :=
  Real.log (1 + m.accumulated_bedarf)

/-- motivators.py lines 34-59: the goal protocol, modelled as a record of its
two capabilities. -/
structure Schema : Type where
  get_value_for_need : NeedType → ℝ
  get_expectation : ℝ

/-- motivators.py lines 163-192. -/
structure Motive : Type where
  motivator : Motivator
  goal : Schema
  expectation_override : Option ℝ := none

/-- motivators.py lines 214-224: the override clamped to [0,1] when set,
otherwise the goal expectation clamped to [0,1]. -/
def Motive.get_expectation (m : Motive) : ℝ :=
  match m.expectation_override with
  | some e => max 0 (min 1 e)
  | none => max 0 (min 1 m.goal.get_expectation)

/-- motivators.py lines 194-212: strength = expectation × value × activity. -/
def Motive.calculate_strength (m : Motive) : ℝ :=
  m.get_expectation * m.goal.get_value_for_need m.motivator.need_type *
    m.motivator.get_activity

/-- motivators.py lines 243-267: the selector configuration. -/
structure Motivselektor : Type where
  min_strength_threshold : ℝ := 0.01
  tie_break_random : Bool := false

/-- motivators.py lines 290-295: candidates whose strength clears the
threshold, kept in supplied order, paired with their strength. -/
def Motivselektor.viable_candidates (sel : Motivselektor) (candidates : List Motive) :
    List (Motive × ℝ) :=
  candidates.filterMap (fun motive =>
    if motive.calculate_strength ≥ sel.min_strength_threshold then
      some (motive, motive.calculate_strength)
    else none)

/-- motivators.py line 301: Python `max` over the strengths of the (nonempty)
viable list; 0 is a junk value for the unreached empty case. -/
def Motivselektor.max_strength (sel : Motivselektor) (candidates : List Motive) : ℝ :=
  match sel.viable_candidates candidates with
  | [] => 0
  | v :: vs => vs.foldl (fun m p => max m p.2) v.2

/-- motivators.py lines 304-307: all viable candidates whose strength is
within 1e-9 of the maximum, in supplied order. -/
def Motivselektor.best_candidates (sel : Motivselektor) (candidates : List Motive) :
    List Motive :=
  (sel.viable_candidates candidates).filterMap (fun p =>
    if |p.2 - sel.max_strength candidates| < 1 / 1000000000 then some p.1 else none)

/-- motivators.py lines 269-317.  `choice` is the injected random source
standing for `random.choice`; it is consulted only in the `tie_break_random`
branch.  `best_candidates[0]` is `List.head?`; the tie set is provably
nonempty whenever that read is reached. -/
def Motivselektor.select_motive (sel : Motivselektor)
    (choice : List Motive → Option Motive) (candidates : List Motive) : Option Motive :=
  if candidates.isEmpty then none
  else if (sel.viable_candidates candidates).isEmpty then none
  else
    let best := sel.best_candidates candidates
    if best.length = 1 then best.head?
    else if sel.tie_break_random then choice best
    else best.head?

/-- Membership in the tie set of motivators.py lines 304-307: viable, and
within 1e-9 of the maximum viable strength. -/
def Motivselektor.is_tied (sel : Motivselektor) (candidates : List Motive)
    (m : Motive) : Prop :=
  m.calculate_strength ≥ sel.min_strength_threshold ∧
    |m.calculate_strength - sel.max_strength candidates| < 1 / 1000000000

end

/-- A NeedTankSystem whose tanks dict was supplied in reverse enum order,
every tank full.  Legal in the source: the dataclass accepts any
insertion-ordered dict of tanks. -/
def revSystem : NeedTankSystem :=
  NeedTankSystem.init (NeedType.all.reverse.map (fun nt => (nt, defaultTank nt)))

/-- A concrete valid tank used in counterexamples: HUNGER, target 1,
current 1/2, depletion 1/100, fill 1/2, critical 1/5. -/
def halfTank : NeedTank :=
  ⟨NeedType.HUNGER, 1, 1/2, 1/100, 1/2, 1/5⟩

noncomputable section

/-- A motivator with zero accumulation and the source defaults, used in
witnesses. -/
def zeroMotivator : Motivator := ⟨NeedType.HUNGER, 0, 0.1, 10⟩

/-- A goal schema of constant value 1 and expectation 1, used in witnesses. -/
def oneSchema : Schema := ⟨fun _ => 1, 1⟩

/-- A goal schema of constant value 0 and expectation 0, used in witnesses. -/
def zeroSchema : Schema := ⟨fun _ => 0, 0⟩

/-- A motive with overridden expectation 0, used in selector witnesses. -/
def wMotive1 : Motive := ⟨zeroMotivator, zeroSchema, some 0⟩

/-- A second motive with overridden expectation 0 and a distinct motivator,
used in selector witnesses. -/
def wMotive2 : Motive := ⟨⟨NeedType.THIRST, 0, 0.1, 10⟩, zeroSchema, some 0⟩

/-- A motive without override, full value and expectation, zero accumulation,
used in the strength witness. -/
def wMotive3 : Motive := ⟨zeroMotivator, oneSchema, none⟩

/-- A selector with threshold 0 and the deterministic tie-break. -/
def zeroSelektor : Motivselektor := ⟨0, false⟩

end

/-- C2 counterexample: on a tank that passes construction validation,
`satisfy` with the negative amount -3/10 strictly decreases `current_level`
(from 1/2 down to 1/5), refuting the part of the claim that says `satisfy`
never decreases the level for any amount. -/
theorem satisfy_negative_amount_decreases :
    (halfTank.satisfy (some (-3/10))).current_level < halfTank.current_level ∧
    NeedTank.construct NeedType.HUNGER 1 (1/2) (1/100) (1/2) (1/5) = .ok halfTank :=
  ⟨by norm_num [halfTank, NeedTank.satisfy, min_def],
    by norm_num [halfTank, NeedTank.construct]⟩

/-- C2 (amended): after `satisfy(amount)` the current level equals
min(target_level, prev + fill amount), where the fill amount is `amount` when
given and `fill_rate` otherwise; the result never exceeds `target_level`; and
the level never decreases provided the applied fill amount is non-negative
and the tank satisfies current_level ≤ target_level. -/
theorem satisfy_clamps (t : NeedTank) (amount : Option ℚ) :
    (t.satisfy amount).current_level =
      min t.target_level
        (t.current_level + (match amount with | some a => a | none => t.fill_rate)) ∧
    (t.satisfy amount).current_level ≤ t.target_level ∧
    (t.current_level ≤ t.target_level →
      0 ≤ (match amount with | some a => a | none => t.fill_rate) →
      t.current_level ≤ (t.satisfy amount).current_level) := by
  unfold NeedTank.satisfy
  dsimp only
  exact ⟨rfl, min_le_left _ _, fun h1 h2 => le_min h1 (by linarith)⟩

/-- C2 witness: the amended satisfy specification evaluated on the concrete
half-full tank with amount 1/4. -/
theorem satisfy_clamps_witness :
    (halfTank.satisfy (some (1/4))).current_level =
      min halfTank.target_level (halfTank.current_level + (1/4 : ℚ)) ∧
    (halfTank.satisfy (some (1/4))).current_level ≤ halfTank.target_level ∧
    (halfTank.current_level ≤ halfTank.target_level → (0 : ℚ) ≤ 1/4 →
      halfTank.current_level ≤ (halfTank.satisfy (some (1/4))).current_level) :=
  satisfy_clamps halfTank (some (1/4))

/-- C5 counterexample: on a tank that passes construction validation,
`satisfy` with amount -10 drives `current_level` to -19/2 < 0, so the
invariant 0 ≤ current_level is not preserved by `satisfy` for arbitrary
amounts. -/
theorem satisfy_negative_amount_breaks_invariant :
    (halfTank.satisfy (some (-10))).current_level < 0 ∧
    NeedTank.construct NeedType.HUNGER 1 (1/2) (1/100) (1/2) (1/5) = .ok halfTank :=
  ⟨by norm_num [halfTank, NeedTank.satisfy, min_def],
    by norm_num [halfTank, NeedTank.construct]⟩

/-- C5 (amended): the invariant 0 ≤ current_level ≤ target_level ≤ 1 of a
validated tank is preserved by every `update(dt)` with dt ≥ 0 and by every
`satisfy(amount)` whose applied fill amount (the given amount, or `fill_rate`
for None) is non-negative. -/
theorem tank_invariant_preserved (t : NeedTank)
    (h0 : 0 ≤ t.current_level) (h1 : t.current_level ≤ t.target_level)
    (h2 : t.target_level ≤ 1) (hd : 0 ≤ t.depletion_rate) :
    (∀ dt : ℚ, 0 ≤ dt →
      0 ≤ (t.update dt).current_level ∧
        (t.update dt).current_level ≤ (t.update dt).target_level ∧
        (t.update dt).target_level ≤ 1) ∧
    (∀ amount : Option ℚ,
      0 ≤ (match amount with | some a => a | none => t.fill_rate) →
      0 ≤ (t.satisfy amount).current_level ∧
        (t.satisfy amount).current_level ≤ (t.satisfy amount).target_level ∧
        (t.satisfy amount).target_level ≤ 1) := by
  constructor
  · intro dt hdt
    unfold NeedTank.update
    dsimp only
    have hmul : 0 ≤ t.depletion_rate * dt := mul_nonneg hd hdt
    exact ⟨le_max_left _ _, max_le (le_trans h0 h1) (by linarith), h2⟩
  · intro amount ha
    unfold NeedTank.satisfy
    dsimp only
    exact ⟨le_min (le_trans h0 h1) (by linarith), min_le_left _ _, h2⟩

/-- C5 witness: the amended invariant preservation evaluated on the concrete
half-full tank. -/
theorem tank_invariant_preserved_witness :
    ((0 : ℚ) ≤ halfTank.current_level ∧ halfTank.current_level ≤ halfTank.target_level ∧
      halfTank.target_level ≤ 1 ∧ (0 : ℚ) ≤ halfTank.depletion_rate) ∧
    ((∀ dt : ℚ, 0 ≤ dt →
      0 ≤ (halfTank.update dt).current_level ∧
        (halfTank.update dt).current_level ≤ (halfTank.update dt).target_level ∧
        (halfTank.update dt).target_level ≤ 1) ∧
    (∀ amount : Option ℚ,
      0 ≤ (match amount with | some a => a | none => halfTank.fill_rate) →
      0 ≤ (halfTank.satisfy amount).current_level ∧
        (halfTank.satisfy amount).current_level ≤ (halfTank.satisfy amount).target_level ∧
        (halfTank.satisfy amount).target_level ≤ 1)) :=
  ⟨by norm_num [halfTank],
    tank_invariant_preserved halfTank (by norm_num [halfTank]) (by norm_num [halfTank])
      (by norm_num [halfTank]) (by norm_num [halfTank])⟩

/-- C3 counterexample: `Motivator` construction is never refused.  In
particular a Motivator with negative decay_rate (-1), negative
max_accumulation (-2) and accumulated_bedarf (-1) outside [0, -2] is
accepted, refuting the claim that such constructions fail validation. -/
theorem motivator_construction_unchecked :
    Motivator.construct NeedType.HUNGER (-1) (-1) (-2) =
      .ok ⟨NeedType.HUNGER, -1, -1, -2⟩ ∧
    ((-1 : ℝ) < 0 ∧ (-2 : ℝ) < 0 ∧ ¬ (0 ≤ (-1 : ℝ) ∧ (-1 : ℝ) ≤ (-2 : ℝ))) :=
  ⟨rfl, by norm_num⟩

/-- C3 (amended): NeedTank construction succeeds exactly when all five
parameters are in range; when it fails, the error names the first offending
field in source order and carries its value, shown by one implication per
field, covering every failing input.  Motivator construction performs no
validation and accepts any field values. -/
theorem construction_validation (nt : NeedType) (t c d f cr : ℚ) (acc dr ma : ℝ) :
    ((∃ tank, NeedTank.construct nt t c d f cr = .ok tank) ↔
      ((0 ≤ t ∧ t ≤ 1) ∧ (0 ≤ c ∧ c ≤ t) ∧ 0 ≤ d ∧ 0 ≤ f ∧ (0 ≤ cr ∧ cr ≤ 1))) ∧
    (¬ (0 ≤ t ∧ t ≤ 1) →
      NeedTank.construct nt t c d f cr = .error (.target_level t)) ∧
    ((0 ≤ t ∧ t ≤ 1) → ¬ (0 ≤ c ∧ c ≤ t) →
      NeedTank.construct nt t c d f cr = .error (.current_level c t)) ∧
    ((0 ≤ t ∧ t ≤ 1) → (0 ≤ c ∧ c ≤ t) → d < 0 →
      NeedTank.construct nt t c d f cr = .error (.depletion_rate d)) ∧
    ((0 ≤ t ∧ t ≤ 1) → (0 ≤ c ∧ c ≤ t) → 0 ≤ d → f < 0 →
      NeedTank.construct nt t c d f cr = .error (.fill_rate f)) ∧
    ((0 ≤ t ∧ t ≤ 1) → (0 ≤ c ∧ c ≤ t) → 0 ≤ d → 0 ≤ f → ¬ (0 ≤ cr ∧ cr ≤ 1) →
      NeedTank.construct nt t c d f cr = .error (.critical_threshold cr)) ∧
    Motivator.construct nt acc dr ma = .ok ⟨nt, acc, dr, ma⟩ := by
  refine ⟨?_, ?_, ?_, ?_, ?_, ?_, rfl⟩
  · unfold NeedTank.construct
    split_ifs with h1 h2 h3 h4 h5
    · exact ⟨fun ⟨_, hf⟩ => hf.elim, fun h => absurd h.2.2.1 (not_le.2 h3)⟩
    · exact ⟨fun ⟨_, hf⟩ => hf.elim, fun h => absurd h.2.2.2.1 (not_le.2 h4)⟩
    · exact ⟨fun _ => ⟨h1, h2, not_lt.1 h3, not_lt.1 h4, h5⟩, fun _ => ⟨_, rfl⟩⟩
    · exact ⟨fun ⟨_, hf⟩ => hf.elim, fun h => absurd h.2.2.2.2 h5⟩
    · exact ⟨fun ⟨_, hf⟩ => hf.elim, fun h => absurd h.2.1 h2⟩
    · exact ⟨fun ⟨_, hf⟩ => hf.elim, fun h => absurd h.1 h1⟩
  · intro h
    unfold NeedTank.construct
    rw [if_pos h]
  · intro h1 h2
    unfold NeedTank.construct
    rw [if_neg (not_not_intro h1), if_pos h2]
  · intro h1 h2 h3
    unfold NeedTank.construct
    rw [if_neg (not_not_intro h1), if_neg (not_not_intro h2), if_pos h3]
  · intro h1 h2 h3 h4
    unfold NeedTank.construct
    rw [if_neg (not_not_intro h1), if_neg (not_not_intro h2), if_neg (not_lt.2 h3),
      if_pos h4]
  · intro h1 h2 h3 h4 h5
    unfold NeedTank.construct
    rw [if_neg (not_not_intro h1), if_neg (not_not_intro h2), if_neg (not_lt.2 h3),
      if_neg (not_lt.2 h4), if_pos h5]

/-- C3 witness: the amended construction specification evaluated at a tank
whose current_level 2 exceeds its target_level 1 (so the current_level
implication fires concretely) and at the unchecked Motivator values. -/
theorem construction_validation_witness :
    ((∃ tank, NeedTank.construct NeedType.HUNGER 1 2 (1/100) (1/2) (1/5) = .ok tank) ↔
      ((0 ≤ (1 : ℚ) ∧ (1 : ℚ) ≤ 1) ∧ ((0 : ℚ) ≤ 2 ∧ (2 : ℚ) ≤ 1) ∧
        (0 : ℚ) ≤ 1/100 ∧ (0 : ℚ) ≤ 1/2 ∧ ((0 : ℚ) ≤ 1/5 ∧ (1/5 : ℚ) ≤ 1))) ∧
    (¬ (0 ≤ (1 : ℚ) ∧ (1 : ℚ) ≤ 1) →
      NeedTank.construct NeedType.HUNGER 1 2 (1/100) (1/2) (1/5) =
        .error (.target_level 1)) ∧
    ((0 ≤ (1 : ℚ) ∧ (1 : ℚ) ≤ 1) → ¬ ((0 : ℚ) ≤ 2 ∧ (2 : ℚ) ≤ 1) →
      NeedTank.construct NeedType.HUNGER 1 2 (1/100) (1/2) (1/5) =
        .error (.current_level 2 1)) ∧
    ((0 ≤ (1 : ℚ) ∧ (1 : ℚ) ≤ 1) → ((0 : ℚ) ≤ 2 ∧ (2 : ℚ) ≤ 1) → (1/100 : ℚ) < 0 →
      NeedTank.construct NeedType.HUNGER 1 2 (1/100) (1/2) (1/5) =
        .error (.depletion_rate (1/100))) ∧
    ((0 ≤ (1 : ℚ) ∧ (1 : ℚ) ≤ 1) → ((0 : ℚ) ≤ 2 ∧ (2 : ℚ) ≤ 1) → (0 : ℚ) ≤ 1/100 →
      (1/2 : ℚ) < 0 →
      NeedTank.construct NeedType.HUNGER 1 2 (1/100) (1/2) (1/5) =
        .error (.fill_rate (1/2))) ∧
    ((0 ≤ (1 : ℚ) ∧ (1 : ℚ) ≤ 1) → ((0 : ℚ) ≤ 2 ∧ (2 : ℚ) ≤ 1) → (0 : ℚ) ≤ 1/100 →
      (0 : ℚ) ≤ 1/2 → ¬ ((0 : ℚ) ≤ 1/5 ∧ (1/5 : ℚ) ≤ 1) →
      NeedTank.construct NeedType.HUNGER 1 2 (1/100) (1/2) (1/5) =
        .error (.critical_threshold (1/5))) ∧
    Motivator.construct NeedType.HUNGER (-3) (-1) (-2) = .ok ⟨NeedType.HUNGER, -3, -1, -2⟩ :=
  construction_validation NeedType.HUNGER 1 2 (1/100) (1/2) (1/5) (-3) (-1) (-2)

/-- C9: a NeedTankSystem constructed without tanks holds exactly one tank per
need type, keyed in enum order, each configured from the default table with
current_level equal to target_level; hence all bedarfe are 0 and no need is
critical. -/
theorem default_system_initial_state :
    (NeedTankSystem.init []).tanks.map Prod.fst = NeedType.all ∧
    (∀ p ∈ (NeedTankSystem.init []).tanks,
      p.2.need_type = p.1 ∧
      p.2.target_level = (NeedTankSystem.DEFAULT_CONFIG p.1).1 ∧
      p.2.current_level = p.2.target_level ∧
      p.2.depletion_rate = (NeedTankSystem.DEFAULT_CONFIG p.1).2.1 ∧
      p.2.fill_rate = (NeedTankSystem.DEFAULT_CONFIG p.1).2.2.1 ∧
      p.2.critical_threshold = (NeedTankSystem.DEFAULT_CONFIG p.1).2.2.2) ∧
    (∀ p ∈ (NeedTankSystem.init []).get_all_bedarfe, p.2 = 0) ∧
    (NeedTankSystem.init []).has_critical_needs = false := by
  refine ⟨rfl, ?_, ?_, ?_⟩
  · intro p hp
    have htanks : (NeedTankSystem.init []).tanks =
        NeedType.all.map (fun nt => (nt, defaultTank nt)) := rfl
    rw [htanks] at hp
    simp only [NeedType.all, List.map_cons, List.map_nil, List.mem_cons,
      List.not_mem_nil, or_false] at hp
    rcases hp with rfl | rfl | rfl | rfl | rfl | rfl <;>
      exact ⟨rfl, rfl, rfl, rfl, rfl, rfl⟩
  · intro p hp
    have hb : (NeedTankSystem.init []).get_all_bedarfe =
        (NeedType.all.map (fun nt => (nt, defaultTank nt))).map
          (fun p => (p.1, p.2.bedarf)) := rfl
    rw [hb] at hp
    simp only [NeedType.all, List.map_cons, List.map_nil, List.mem_cons,
      List.not_mem_nil, or_false] at hp
    rcases hp with rfl | rfl | rfl | rfl | rfl | rfl <;>
      norm_num [defaultTank, NeedTankSystem.DEFAULT_CONFIG, NeedTank.bedarf]
  · have hc : (NeedTankSystem.init []).has_critical_needs =
        ((NeedType.all.map (fun nt => (nt, defaultTank nt))).any
          (fun p => p.2.is_critical)) := rfl
    rw [hc]
    simp only [NeedType.all, List.map_cons, List.map_nil, List.any_cons, List.any_nil,
      Bool.or_false]
    norm_num [NeedTank.is_critical, defaultTank, NeedTankSystem.DEFAULT_CONFIG,
      Bool.or_eq_false_iff, decide_eq_false_iff_not]

/-- C10: `satisfaction_ratio` is total, returns 0 when target_level is 0, and
lies in [0, 1] under the tank invariant 0 ≤ current_level ≤ target_level. -/
theorem satisfaction_ratio_total (t : NeedTank)
    (h0 : 0 ≤ t.current_level) (h1 : t.current_level ≤ t.target_level) :
    (t.target_level = 0 → NeedTank.satisfaction_ratio t = 0) ∧
    0 ≤ NeedTank.satisfaction_ratio t ∧ NeedTank.satisfaction_ratio t ≤ 1 := by
  unfold NeedTank.satisfaction_ratio
  by_cases h : t.target_level = 0
  · simp [h]
  · have hpos : 0 < t.target_level := lt_of_le_of_ne (le_trans h0 h1) (Ne.symm h)
    rw [if_neg h]
    exact ⟨fun hc => absurd hc h, div_nonneg h0 (le_of_lt hpos), (div_le_one hpos).2 h1⟩

/-- C10 witness: the ratio specification evaluated on the concrete half-full
tank. -/
theorem satisfaction_ratio_total_witness :
    ((0 : ℚ) ≤ halfTank.current_level ∧ halfTank.current_level ≤ halfTank.target_level) ∧
    ((halfTank.target_level = 0 → NeedTank.satisfaction_ratio halfTank = 0) ∧
      0 ≤ NeedTank.satisfaction_ratio halfTank ∧
      NeedTank.satisfaction_ratio halfTank ≤ 1) :=
  ⟨by norm_num [halfTank],
    satisfaction_ratio_total halfTank (by norm_num [halfTank]) (by norm_num [halfTank])⟩

/-- Python `max(..., key=...)` over a nonempty sequence, written as the fold
used in `get_most_urgent_need`: it returns the first element attaining the
maximum key, every element is bounded by it, and every element strictly
before it has a strictly smaller key. -/
theorem foldl_argmax_spec :
    ∀ (l : List (NeedType × NeedTank)) (b : NeedType × NeedTank),
      ∃ l1 r l2, b :: l = l1 ++ r :: l2 ∧
        l.foldl (fun acc q => if q.2.bedarf > acc.2.bedarf then q else acc) b = r ∧
        (∀ x ∈ b :: l, x.2.bedarf ≤ r.2.bedarf) ∧
        (∀ x ∈ l1, x.2.bedarf < r.2.bedarf) := by
  intro l
  induction l with
  | nil =>
    intro b
    exact ⟨[], b, [], rfl, rfl, by simp, by simp⟩
  | cons q t ih =>
    intro b
    rw [List.foldl_cons]
    by_cases hq : q.2.bedarf > b.2.bedarf
    · rw [if_pos hq]
      obtain ⟨l1, r, l2, hdec, hfold, hmax, hbefore⟩ := ih q
      have hqr : q.2.bedarf ≤ r.2.bedarf := hmax q (List.mem_cons_self q t)
      refine ⟨b :: l1, r, l2, ?_, hfold, ?_, ?_⟩
      · rw [List.cons_append, ← hdec]
      · intro x hx
        rcases List.mem_cons.1 hx with rfl | hx2
        · linarith
        · exact hmax x hx2
      · intro x hx
        rcases List.mem_cons.1 hx with rfl | hx2
        · linarith
        · exact hbefore x hx2
    · rw [if_neg hq]
      push_neg at hq
      obtain ⟨l1, r, l2, hdec, hfold, hmax, hbefore⟩ := ih b
      cases l1 with
      | nil =>
        rw [List.nil_append] at hdec
        injection hdec with hbr htl
        refine ⟨[], r, q :: t, ?_, hfold, ?_, by simp⟩
        · rw [List.nil_append, hbr]
        · intro x hx
          rcases List.mem_cons.1 hx with rfl | hx2
          · exact le_of_eq (by rw [hbr])
          rcases List.mem_cons.1 hx2 with rfl | hx3
          · rw [← hbr]
            exact hq
          · exact hmax x (List.mem_cons_of_mem _ hx3)
      | cons b0 l1t =>
        rw [List.cons_append] at hdec
        injection hdec with hb0 htl
        have hbr : b.2.bedarf < r.2.bedarf := by
          rw [hb0]
          exact hbefore b0 (List.mem_cons_self b0 l1t)
        refine ⟨b :: q :: l1t, r, l2, ?_, hfold, ?_, ?_⟩
        · rw [htl]
          simp [List.cons_append]
        · intro x hx
          rcases List.mem_cons.1 hx with rfl | hx2
          · exact le_of_lt hbr
          rcases List.mem_cons.1 hx2 with rfl | hx3
          · linarith
          · exact hmax x (List.mem_cons_of_mem b hx3)
        · intro x hx
          rcases List.mem_cons.1 hx with rfl | hx2
          · exact hbr
          rcases List.mem_cons.1 hx2 with rfl | hx3
          · linarith
          · exact hbefore x (List.mem_cons_of_mem b0 hx3)

/-- C4 counterexample: in a system whose tanks dict was supplied in reverse
enum order, all six bedarfe tie at the maximum 0, yet `get_most_urgent_need`
returns AFFILIATION (the first key in insertion order) and not HUNGER, the
tied need of lowest enum ordinal. -/
theorem get_most_urgent_not_lowest_ordinal :
    revSystem.get_most_urgent_need = some NeedType.AFFILIATION ∧
    (∀ p ∈ revSystem.tanks, p.2.bedarf = 0) ∧
    (NeedType.HUNGER, defaultTank NeedType.HUNGER) ∈ revSystem.tanks ∧
    NeedType.value NeedType.HUNGER < NeedType.value NeedType.AFFILIATION := by
  have htanks : revSystem.tanks =
      [(NeedType.AFFILIATION, defaultTank NeedType.AFFILIATION),
       (NeedType.COMPETENCE, defaultTank NeedType.COMPETENCE),
       (NeedType.CERTAINTY, defaultTank NeedType.CERTAINTY),
       (NeedType.ENERGY, defaultTank NeedType.ENERGY),
       (NeedType.THIRST, defaultTank NeedType.THIRST),
       (NeedType.HUNGER, defaultTank NeedType.HUNGER)] := rfl
  refine ⟨?_, ?_, ?_, ?_⟩
  · unfold NeedTankSystem.get_most_urgent_need
    rw [htanks]
    norm_num [NeedTank.bedarf, defaultTank, NeedTankSystem.DEFAULT_CONFIG,
      List.foldl_cons, List.foldl_nil]
  · intro p hp
    rw [htanks] at hp
    simp only [List.mem_cons, List.not_mem_nil, or_false] at hp
    rcases hp with rfl | rfl | rfl | rfl | rfl | rfl <;>
      norm_num [NeedTank.bedarf, defaultTank, NeedTankSystem.DEFAULT_CONFIG]
  · rw [htanks]
    simp
  · decide

/-- C4 (amended): `get_most_urgent_need` returns a need whose tank bedarf is
maximal among all tanks; exact ties are broken by the earliest position in
the tanks mapping iteration (insertion) order.  For a default-constructed
system that order is HUNGER, THIRST, ENERGY, CERTAINTY, COMPETENCE,
AFFILIATION, so only there does the lowest enum ordinal win. -/
theorem get_most_urgent_first_argmax (s : NeedTankSystem)
    (p : NeedType × NeedTank) (ps : List (NeedType × NeedTank))
    (h : s.tanks = p :: ps) :
    ∃ q l1 l2, s.tanks = l1 ++ q :: l2 ∧
      s.get_most_urgent_need = some q.1 ∧
      (∀ r ∈ s.tanks, r.2.bedarf ≤ q.2.bedarf) ∧
      (∀ r ∈ l1, r.2.bedarf < q.2.bedarf) := by
  obtain ⟨l1, r, l2, hdec, hfold, hmax, hbefore⟩ := foldl_argmax_spec ps p
  refine ⟨r, l1, l2, ?_, ?_, ?_, hbefore⟩
  · rw [h]
    exact hdec
  · have hm : s.get_most_urgent_need =
        some ((ps.foldl (fun acc q => if q.2.bedarf > acc.2.bedarf then q else acc) p).1) := by
      unfold NeedTankSystem.get_most_urgent_need
      rw [h]
    rw [hm, hfold]
  · intro x hx
    rw [h] at hx
    exact hmax x hx

/-- C4 witness: the amended argmax specification applied to the default
system, whose tanks list is concretely in enum order. -/
theorem get_most_urgent_first_argmax_witness :
    (NeedTankSystem.init []).tanks =
      (NeedType.HUNGER, defaultTank NeedType.HUNGER) ::
        [(NeedType.THIRST, defaultTank NeedType.THIRST),
         (NeedType.ENERGY, defaultTank NeedType.ENERGY),
         (NeedType.CERTAINTY, defaultTank NeedType.CERTAINTY),
         (NeedType.COMPETENCE, defaultTank NeedType.COMPETENCE),
         (NeedType.AFFILIATION, defaultTank NeedType.AFFILIATION)] ∧
    (∃ q l1 l2, (NeedTankSystem.init []).tanks = l1 ++ q :: l2 ∧
      (NeedTankSystem.init []).get_most_urgent_need = some q.1 ∧
      (∀ r ∈ (NeedTankSystem.init []).tanks, r.2.bedarf ≤ q.2.bedarf) ∧
      (∀ r ∈ l1, r.2.bedarf < q.2.bedarf)) :=
  ⟨rfl, get_most_urgent_first_argmax (NeedTankSystem.init []) _ _ rfl⟩

/-- If the head of a filterMap is `some b`, the underlying list splits at the
first element that maps to a some, and everything before it maps to none. -/
theorem head_of_filterMap {α β : Type} (f : α → Option β) :
    ∀ (l : List α) (b : β), (l.filterMap f).head? = some b →
      ∃ l1 x l2, l = l1 ++ x :: l2 ∧ f x = some b ∧ ∀ y ∈ l1, f y = none := by
  intro l
  induction l with
  | nil =>
    intro b h
    simp at h
  | cons a t ih =>
    intro b h
    cases hfa : f a with
    | none =>
      simp only [List.filterMap_cons, hfa] at h
      obtain ⟨l1, x, l2, hdec, hx, hl1⟩ := ih b h
      refine ⟨a :: l1, x, l2, by rw [List.cons_append, hdec], hx, ?_⟩
      intro y hy
      rcases List.mem_cons.1 hy with rfl | hy2
      · exact hfa
      · exact hl1 y hy2
    | some c =>
      simp only [List.filterMap_cons, hfa, List.head?_cons, Option.some.injEq] at h
      refine ⟨[], a, t, rfl, ?_, by simp⟩
      rw [hfa, h]

/-- The fold computing the maximum strength is attained: it equals the seed
or the strength component of some list element. -/
theorem foldl_max_attained :
    ∀ (l : List (Motive × ℝ)) (a : ℝ),
      l.foldl (fun m p => max m p.2) a = a ∨
        ∃ p ∈ l, l.foldl (fun m p => max m p.2) a = p.2 := by
  intro l
  induction l with
  | nil =>
    intro a
    exact Or.inl rfl
  | cons q t ih =>
    intro a
    rw [List.foldl_cons]
    rcases ih (max a q.2) with h | ⟨p, hp, hfold⟩
    · rcases max_choice a q.2 with hm | hm
      · exact Or.inl (by rw [h, hm])
      · exact Or.inr ⟨q, List.mem_cons_self q t, by rw [h, hm]⟩
    · exact Or.inr ⟨p, List.mem_cons_of_mem q hp, hfold⟩

/-- The tie-set computation of the selector, fused into a single pass over
the supplied candidates. -/
theorem best_candidates_eq (sel : Motivselektor) (cands : List Motive) :
    sel.best_candidates cands = cands.filterMap (fun m =>
      if m.calculate_strength ≥ sel.min_strength_threshold then
        (if |m.calculate_strength - sel.max_strength cands| < 1 / 1000000000 then
          some m else none)
      else none) := by
  unfold Motivselektor.best_candidates Motivselektor.viable_candidates
  rw [List.filterMap_filterMap]
  congr 1
  funext m
  by_cases h1 : m.calculate_strength ≥ sel.min_strength_threshold
  · rw [if_pos h1, if_pos h1]
    rfl
  · rw [if_neg h1, if_neg h1]
    rfl

/-- Unfolding of the fused tie-set pass at a single candidate. -/
theorem combined_some_iff (sel : Motivselektor) (cands : List Motive) (m x : Motive) :
    ((if m.calculate_strength ≥ sel.min_strength_threshold then
        (if |m.calculate_strength - sel.max_strength cands| < 1 / 1000000000 then
          some m else none)
      else none) = some x) ↔ (x = m ∧ sel.is_tied cands m) := by
  unfold Motivselektor.is_tied
  by_cases h1 : m.calculate_strength ≥ sel.min_strength_threshold
  · rw [if_pos h1]
    by_cases h2 : |m.calculate_strength - sel.max_strength cands| < 1 / 1000000000
    · rw [if_pos h2]
      constructor
      · intro h
        injection h with h
        exact ⟨h.symm, h1, h2⟩
      · rintro ⟨rfl, _⟩
        rfl
    · rw [if_neg h2]
      constructor
      · intro h
        exact Option.noConfusion h
      · rintro ⟨rfl, _, hc⟩
        exact absurd hc h2
  · rw [if_neg h1]
    constructor
    · intro h
      exact Option.noConfusion h
    · rintro ⟨rfl, hc, _⟩
      exact absurd hc h1

/-- Membership in the viable list, characterised. -/
theorem mem_viable_iff (sel : Motivselektor) (cands : List Motive) (p : Motive × ℝ) :
    p ∈ sel.viable_candidates cands ↔
      p.1 ∈ cands ∧ p.2 = p.1.calculate_strength ∧
        p.1.calculate_strength ≥ sel.min_strength_threshold := by
  obtain ⟨a, b⟩ := p
  unfold Motivselektor.viable_candidates
  rw [List.mem_filterMap]
  constructor
  · rintro ⟨m, hm, hsome⟩
    by_cases h1 : m.calculate_strength ≥ sel.min_strength_threshold
    · rw [if_pos h1] at hsome
      injection hsome with hsome
      injection hsome with hsome1 hsome2
      rw [← hsome1, ← hsome2]
      exact ⟨hm, rfl, h1⟩
    · rw [if_neg h1] at hsome
      exact Option.noConfusion hsome
  · rintro ⟨hm, hb, hth⟩
    refine ⟨a, hm, ?_⟩
    rw [if_pos hth]
    dsimp only at hb
    rw [hb]

/-- The maximum viable strength is attained by some viable pair. -/
theorem max_strength_attained (sel : Motivselektor) (cands : List Motive)
    (hv : sel.viable_candidates cands ≠ []) :
    ∃ p ∈ sel.viable_candidates cands, p.2 = sel.max_strength cands := by
  unfold Motivselektor.max_strength
  cases hvc : sel.viable_candidates cands with
  | nil => exact absurd hvc hv
  | cons v vs =>
    rcases foldl_max_attained vs v.2 with h | ⟨p, hp, hfold⟩
    · exact ⟨v, List.mem_cons_self v vs, h.symm⟩
    · exact ⟨p, List.mem_cons_of_mem v hp, hfold.symm⟩

/-- The tie set is nonempty whenever the viable list is. -/
theorem best_candidates_ne_nil (sel : Motivselektor) (cands : List Motive)
    (hv : sel.viable_candidates cands ≠ []) :
    sel.best_candidates cands ≠ [] := by
  obtain ⟨p, hpmem, hpmax⟩ := max_strength_attained sel cands hv
  obtain ⟨hp1, hp2, hpth⟩ := (mem_viable_iff sel cands p).1 hpmem
  have hptied : sel.is_tied cands p.1 := by
    refine ⟨hpth, ?_⟩
    rw [← hp2, hpmax]
    norm_num
  apply List.ne_nil_of_mem (a := p.1)
  rw [best_candidates_eq]
  exact List.mem_filterMap.2 ⟨p.1, hp1, (combined_some_iff sel cands p.1 p.1).2 ⟨rfl, hptied⟩⟩

/-- Every member of the tie set is a supplied candidate. -/
theorem best_candidates_subset (sel : Motivselektor) (cands : List Motive) :
    ∀ m ∈ sel.best_candidates cands, m ∈ cands := by
  intro m hm
  rw [best_candidates_eq] at hm
  obtain ⟨x, hx, hsome⟩ := List.mem_filterMap.1 hm
  obtain ⟨rfl, _⟩ := (combined_some_iff sel cands x m).1 hsome
  exact hx

/-- The viable list is empty exactly when every candidate strength is
strictly below the threshold. -/
theorem viable_empty_iff (sel : Motivselektor) (cands : List Motive) :
    sel.viable_candidates cands = [] ↔
      ∀ m ∈ cands, m.calculate_strength < sel.min_strength_threshold := by
  unfold Motivselektor.viable_candidates
  rw [List.filterMap_eq_nil_iff]
  constructor
  · intro h m hm
    have hnone := h m hm
    by_cases hth : m.calculate_strength ≥ sel.min_strength_threshold
    · rw [if_pos hth] at hnone
      exact Option.noConfusion hnone
    · exact lt_of_not_ge hth
  · intro h m hm
    rw [if_neg (not_le.2 (h m hm))]

/-- Whenever some candidate is viable, the selector returns a candidate from
the supplied list, for any well-behaved random source. -/
theorem select_motive_isSome (sel : Motivselektor)
    (choice : List Motive → Option Motive) (cands : List Motive)
    (hchoice : ∀ l, l ≠ [] → ∃ m, choice l = some m ∧ m ∈ l)
    (hv : sel.viable_candidates cands ≠ []) :
    ∃ m, sel.select_motive choice cands = some m ∧ m ∈ cands := by
  have hbestne := best_candidates_ne_nil sel cands hv
  have hcne : cands ≠ [] := by
    intro hc
    apply hv
    rw [hc]
    rfl
  have h1 : ¬ (cands.isEmpty = true) := by
    rw [List.isEmpty_iff]
    exact hcne
  have h2 : ¬ ((sel.viable_candidates cands).isEmpty = true) := by
    rw [List.isEmpty_iff]
    exact hv
  obtain ⟨mh, hmh, hmhmem⟩ :
      ∃ m, (sel.best_candidates cands).head? = some m ∧ m ∈ cands := by
    cases hbc : sel.best_candidates cands with
    | nil => exact absurd hbc hbestne
    | cons x xs =>
      exact ⟨x, rfl, best_candidates_subset sel cands x
        (by rw [hbc]; exact List.mem_cons_self x xs)⟩
  by_cases hlen : (sel.best_candidates cands).length = 1
  · refine ⟨mh, ?_, hmhmem⟩
    unfold Motivselektor.select_motive
    rw [if_neg h1, if_neg h2]
    dsimp only
    rw [if_pos hlen]
    exact hmh
  · by_cases hrand : sel.tie_break_random
    · obtain ⟨mc, hmc, hmcmem⟩ := hchoice _ hbestne
      refine ⟨mc, ?_, best_candidates_subset sel cands mc hmcmem⟩
      unfold Motivselektor.select_motive
      rw [if_neg h1, if_neg h2]
      dsimp only
      rw [if_neg hlen, if_pos hrand]
      exact hmc
    · refine ⟨mh, ?_, hmhmem⟩
      unfold Motivselektor.select_motive
      rw [if_neg h1, if_neg h2]
      dsimp only
      rw [if_neg hlen, if_neg hrand]
      exact hmh

/-- C1: with tie_break_random = false and at least one viable candidate, the
selector returns, for every injected random source, the unique first
candidate (in supplied order) of the tie set; in particular the result is
identical across repeated calls on the same list, and when several
candidates tie within 1e-9 of the maximum the earliest supplied one wins. -/
theorem select_motive_first_tied (sel : Motivselektor) (cands : List Motive)
    (hr : sel.tie_break_random = false)
    (hv : sel.viable_candidates cands ≠ []) :
    ∃ m l1 l2, (∀ choice, sel.select_motive choice cands = some m) ∧
      cands = l1 ++ m :: l2 ∧ sel.is_tied cands m ∧
      ∀ x ∈ l1, ¬ sel.is_tied cands x := by
  have hbestne := best_candidates_ne_nil sel cands hv
  have hcne : cands ≠ [] := by
    intro hc
    apply hv
    rw [hc]
    rfl
  have h1 : ¬ (cands.isEmpty = true) := by
    rw [List.isEmpty_iff]
    exact hcne
  have h2 : ¬ ((sel.viable_candidates cands).isEmpty = true) := by
    rw [List.isEmpty_iff]
    exact hv
  obtain ⟨m, hm⟩ : ∃ m, (sel.best_candidates cands).head? = some m := by
    cases hbc : sel.best_candidates cands with
    | nil => exact absurd hbc hbestne
    | cons x xs => exact ⟨x, rfl⟩
  have hsel : ∀ choice, sel.select_motive choice cands = some m := by
    intro choice
    unfold Motivselektor.select_motive
    rw [if_neg h1, if_neg h2]
    dsimp only
    by_cases hlen : (sel.best_candidates cands).length = 1
    · rw [if_pos hlen]
      exact hm
    · rw [if_neg hlen, if_neg (by rw [hr]; exact Bool.false_ne_true)]
      exact hm
  have hmfm : (cands.filterMap (fun x =>
      if x.calculate_strength ≥ sel.min_strength_threshold then
        (if |x.calculate_strength - sel.max_strength cands| < 1 / 1000000000 then
          some x else none)
      else none)).head? = some m := by
    rw [← best_candidates_eq]
    exact hm
  obtain ⟨l1, x, l2, hdec, hx, hl1⟩ := head_of_filterMap _ cands m hmfm
  obtain ⟨hxm, hxtied⟩ := (combined_some_iff sel cands x m).1 hx
  subst hxm
  refine ⟨m, l1, l2, hsel, hdec, hxtied, ?_⟩
  intro y hy htied
  have hsome := (combined_some_iff sel cands y y).2 ⟨rfl, htied⟩
  rw [hl1 y hy] at hsome
  exact Option.noConfusion hsome

/-- C7: the selector yields no motive exactly for an empty candidate list or
when every candidate strength is strictly below the threshold; in every
other case it returns a member of the supplied list.  The hypothesis states
that the injected random source (standing for `random.choice`) picks an
element of a nonempty list. -/
theorem select_motive_none_iff (sel : Motivselektor)
    (choice : List Motive → Option Motive) (cands : List Motive)
    (hchoice : ∀ l, l ≠ [] → ∃ m, choice l = some m ∧ m ∈ l) :
    (sel.select_motive choice cands = none ↔
      cands = [] ∨ ∀ m ∈ cands, m.calculate_strength < sel.min_strength_threshold) ∧
    (∀ m, sel.select_motive choice cands = some m → m ∈ cands) := by
  constructor
  · constructor
    · intro hnone
      by_cases hc : cands = []
      · exact Or.inl hc
      · right
        rw [← viable_empty_iff]
        by_contra hvne
        obtain ⟨m, hm, _⟩ := select_motive_isSome sel choice cands hchoice hvne
        rw [hnone] at hm
        exact Option.noConfusion hm
    · intro h
      rcases h with hc | hbelow
      · unfold Motivselektor.select_motive
        rw [if_pos (by rw [hc]; rfl)]
      · unfold Motivselektor.select_motive
        by_cases hc : cands.isEmpty = true
        · rw [if_pos hc]
        · rw [if_neg hc,
            if_pos (by rw [(viable_empty_iff sel cands).2 hbelow]; rfl)]
  · intro m hm
    by_cases hc : cands.isEmpty = true
    · unfold Motivselektor.select_motive at hm
      rw [if_pos hc] at hm
      exact Option.noConfusion hm
    · by_cases hvc : (sel.viable_candidates cands).isEmpty = true
      · unfold Motivselektor.select_motive at hm
        rw [if_neg hc, if_pos hvc] at hm
        exact Option.noConfusion hm
      · have hv : sel.viable_candidates cands ≠ [] := by
          intro h
          apply hvc
          rw [h]
          rfl
        obtain ⟨m2, hm2, hm2mem⟩ := select_motive_isSome sel choice cands hchoice hv
        rw [hm] at hm2
        injection hm2 with heq
        rw [heq]
        exact hm2mem

/-- The first override-0 witness motive has strength 0. -/
theorem wMotive1_strength : wMotive1.calculate_strength = 0 := by
  unfold Motive.calculate_strength Motive.get_expectation wMotive1
  dsimp only
  rw [min_def]
  norm_num

/-- The second override-0 witness motive has strength 0. -/
theorem wMotive2_strength : wMotive2.calculate_strength = 0 := by
  unfold Motive.calculate_strength Motive.get_expectation wMotive2
  dsimp only
  rw [min_def]
  norm_num

/-- With threshold 0, both witness motives are viable. -/
theorem wViable_ne_nil :
    zeroSelektor.viable_candidates [wMotive1, wMotive2] ≠ [] := by
  unfold Motivselektor.viable_candidates zeroSelektor
  simp [List.filterMap_cons, wMotive1_strength, wMotive2_strength]

/-- C1 witness: the tie-break theorem applied to two concrete motives that
tie at strength 0 under threshold 0 with the deterministic tie-break. -/
theorem select_motive_first_tied_witness :
    zeroSelektor.tie_break_random = false ∧
    zeroSelektor.viable_candidates [wMotive1, wMotive2] ≠ [] ∧
    ∃ m l1 l2,
      (∀ choice, zeroSelektor.select_motive choice [wMotive1, wMotive2] = some m) ∧
      [wMotive1, wMotive2] = l1 ++ m :: l2 ∧
      zeroSelektor.is_tied [wMotive1, wMotive2] m ∧
      ∀ x ∈ l1, ¬ zeroSelektor.is_tied [wMotive1, wMotive2] x :=
  ⟨rfl, wViable_ne_nil,
    select_motive_first_tied zeroSelektor [wMotive1, wMotive2] rfl wViable_ne_nil⟩

/-- `List.head?` is a well-behaved choice function on nonempty lists. -/
theorem headChoiceSpec :
    ∀ l : List Motive, l ≠ [] → ∃ m, List.head? l = some m ∧ m ∈ l := by
  intro l hl
  cases l with
  | nil => exact absurd rfl hl
  | cons a t => exact ⟨a, rfl, List.mem_cons_self a t⟩

/-- C7 witness: the none-characterisation applied to the empty candidate
list with `List.head?` as the injected random source. -/
theorem select_motive_none_iff_witness :
    (∀ l : List Motive, l ≠ [] → ∃ m, List.head? l = some m ∧ m ∈ l) ∧
    ((zeroSelektor.select_motive List.head? [] = none ↔
      ([] : List Motive) = [] ∨ ∀ m ∈ ([] : List Motive),
        m.calculate_strength < zeroSelektor.min_strength_threshold) ∧
    (∀ m, zeroSelektor.select_motive List.head? [] = some m →
      m ∈ ([] : List Motive))) :=
  ⟨headChoiceSpec, select_motive_none_iff zeroSelektor List.head? [] headChoiceSpec⟩

/-- C6: motive strength is the product expectation × value × activity, where
the expectation is the override clamped to [0,1] when set and the goal
expectation clamped to [0,1] otherwise; the strength is 0 whenever any
factor is 0, and, for a goal value and an accumulation respecting their
documented ranges, strictly positive exactly when all three factors are. -/
theorem calculate_strength_spec (m : Motive)
    (hv : 0 ≤ m.goal.get_value_for_need m.motivator.need_type)
    (ha : 0 ≤ m.motivator.accumulated_bedarf) :
    m.calculate_strength =
      m.get_expectation * m.goal.get_value_for_need m.motivator.need_type *
        m.motivator.get_activity ∧
    (∀ e, m.expectation_override = some e → m.get_expectation = max 0 (min 1 e)) ∧
    (m.expectation_override = none →
      m.get_expectation = max 0 (min 1 m.goal.get_expectation)) ∧
    ((m.get_expectation = 0 ∨ m.goal.get_value_for_need m.motivator.need_type = 0 ∨
        m.motivator.get_activity = 0) → m.calculate_strength = 0) ∧
    (0 < m.calculate_strength ↔
      0 < m.get_expectation ∧
        0 < m.goal.get_value_for_need m.motivator.need_type ∧
        0 < m.motivator.get_activity) := by
  have he : 0 ≤ m.get_expectation := by
    unfold Motive.get_expectation
    cases m.expectation_override <;> exact le_max_left 0 _
  have hact : 0 ≤ m.motivator.get_activity := Real.log_nonneg (by linarith)
  refine ⟨rfl, ?_, ?_, ?_, ?_⟩
  · intro e hee
    unfold Motive.get_expectation
    rw [hee]
  · intro hee
    unfold Motive.get_expectation
    rw [hee]
  · intro h
    unfold Motive.calculate_strength
    rcases h with h | h | h <;> rw [h] <;> ring
  · constructor
    · intro h
      have hne : m.get_expectation * m.goal.get_value_for_need m.motivator.need_type *
          m.motivator.get_activity ≠ 0 := by
        intro h0
        unfold Motive.calculate_strength at h
        rw [h0] at h
        exact lt_irrefl 0 h
      obtain ⟨hev, ha0⟩ := mul_ne_zero_iff.1 hne
      obtain ⟨he0, hv0⟩ := mul_ne_zero_iff.1 hev
      exact ⟨lt_of_le_of_ne he (Ne.symm he0), lt_of_le_of_ne hv (Ne.symm hv0),
        lt_of_le_of_ne hact (Ne.symm ha0)⟩
    · rintro ⟨hp1, hp2, hp3⟩
      unfold Motive.calculate_strength
      exact mul_pos (mul_pos hp1 hp2) hp3

/-- C6 witness: the strength specification evaluated on the concrete motive
with value 1, goal expectation 1 and accumulation 0. -/
theorem calculate_strength_spec_witness :
    ((0 : ℝ) ≤ wMotive3.goal.get_value_for_need wMotive3.motivator.need_type ∧
      (0 : ℝ) ≤ wMotive3.motivator.accumulated_bedarf) ∧
    (wMotive3.calculate_strength =
      wMotive3.get_expectation *
        wMotive3.goal.get_value_for_need wMotive3.motivator.need_type *
        wMotive3.motivator.get_activity ∧
    (∀ e, wMotive3.expectation_override = some e →
      wMotive3.get_expectation = max 0 (min 1 e)) ∧
    (wMotive3.expectation_override = none →
      wMotive3.get_expectation = max 0 (min 1 wMotive3.goal.get_expectation)) ∧
    ((wMotive3.get_expectation = 0 ∨
        wMotive3.goal.get_value_for_need wMotive3.motivator.need_type = 0 ∨
        wMotive3.motivator.get_activity = 0) → wMotive3.calculate_strength = 0) ∧
    (0 < wMotive3.calculate_strength ↔
      0 < wMotive3.get_expectation ∧
        0 < wMotive3.goal.get_value_for_need wMotive3.motivator.need_type ∧
        0 < wMotive3.motivator.get_activity)) :=
  ⟨⟨by norm_num [wMotive3, oneSchema], by norm_num [wMotive3, zeroMotivator]⟩,
    calculate_strength_spec wMotive3 (by norm_num [wMotive3, oneSchema])
      (by norm_num [wMotive3, zeroMotivator])⟩

/-- C8: get_activity equals ln(1 + accumulated_bedarf); under the invariant
0 ≤ accumulated_bedarf ≤ max_accumulation it is zero iff the accumulation is
zero, strictly increasing in the accumulation, and bounded above by
ln(1 + max_accumulation). -/
theorem get_activity_spec (m : Motivator)
    (h0 : 0 ≤ m.accumulated_bedarf)
    (hinv : m.accumulated_bedarf ≤ m.max_accumulation) :
    m.get_activity = Real.log (1 + m.accumulated_bedarf) ∧
    (m.get_activity = 0 ↔ m.accumulated_bedarf = 0) ∧
    (∀ n : Motivator, m.accumulated_bedarf < n.accumulated_bedarf →
      m.get_activity < n.get_activity) ∧
    m.get_activity ≤ Real.log (1 + m.max_accumulation) := by
  refine ⟨rfl, ?_, ?_, ?_⟩
  · unfold Motivator.get_activity
    constructor
    · intro h
      rcases Real.log_eq_zero.1 h with h1 | h1 | h1 <;> linarith
    · intro h
      rw [h]
      norm_num [Real.log_one]
  · intro n hn
    unfold Motivator.get_activity
    exact Real.log_lt_log (by linarith) (by linarith)
  · unfold Motivator.get_activity
    exact (Real.log_le_log_iff (by linarith) (by linarith)).2 (by linarith)

/-- C8 witness: the activity specification evaluated on the motivator with
accumulation 0 and max accumulation 10. -/
theorem get_activity_spec_witness :
    ((0 : ℝ) ≤ zeroMotivator.accumulated_bedarf ∧
      zeroMotivator.accumulated_bedarf ≤ zeroMotivator.max_accumulation) ∧
    (zeroMotivator.get_activity = Real.log (1 + zeroMotivator.accumulated_bedarf) ∧
    (zeroMotivator.get_activity = 0 ↔ zeroMotivator.accumulated_bedarf = 0) ∧
    (∀ n : Motivator, zeroMotivator.accumulated_bedarf < n.accumulated_bedarf →
      zeroMotivator.get_activity < n.get_activity) ∧
    zeroMotivator.get_activity ≤ Real.log (1 + zeroMotivator.max_accumulation)) :=
  ⟨⟨by norm_num [zeroMotivator], by norm_num [zeroMotivator]⟩,
    get_activity_spec zeroMotivator (by norm_num [zeroMotivator])
      (by norm_num [zeroMotivator])⟩

end PyPSI
